import Mathlib

/-!
Verification of the Book-Creator repository (two near-duplicate scripts,
`book_creation_og.py` targeting the OpenAI API and `book_gen_anth.py`
targeting the Anthropic API).

Python strings are modelled as lists of characters (`Chars`); the two
language-model APIs, the HTTP image endpoints and the file system are
modelled as explicit oracles passed into the embedded functions, so every
definition is executable and the control flow of each embedded function
mirrors the corresponding Python source line by line.
-/

namespace BookCreator

/-- Python strings, modelled as lists of characters. -/
abbrev Chars := List Char

/-- Character-list view of a Lean string literal. -/
def pyStr (s : String) : Chars := s.data

/-- Decimal rendering of a natural number, as Python `str` produces for a
nonnegative `int` (and as an f-string interpolates it). -/
def natStr (n : Nat) : Chars := (Nat.repr n).data

/-- The synthetic chapter title `"Chapter k"` appended by the outline repair
loop (`chapters.append(f"Chapter {...}")`, `book_creation_og.py` line 105 and
`book_gen_anth.py` line 120). -/
def syntheticTitle (k : Nat) : Chars := pyStr "Chapter " ++ natStr k

/-- The `while len(chapters) < num_chapters: chapters.append(f"Chapter ...")`
loop of `book_creation_og.py` lines 104–105 / `book_gen_anth.py` lines
119–120. -/
def padChapters (cs : List Chars) (n : Nat) : List Chars :=
  if cs.length < n then padChapters (cs ++ [syntheticTitle (cs.length + 1)]) n
  else cs
termination_by n - cs.length
decreasing_by simp only [List.length_append, List.length_cons, List.length_nil]; omega

/-- The length-repair step applied to a successfully parsed outline list
(`book_creation_og.py` lines 99–105 / `book_gen_anth.py` lines 114–120):
truncate when too long, pad with synthetic titles when too short. -/
def adjustChapters (cs : List Chars) (n : Nat) : List Chars :=
  if cs.length = n then cs
  else if cs.length > n then cs.take n
  else padChapters cs n

/-- Boolean test that `pat` is a leading segment of `s`. -/
def isStartOf : Chars → Chars → Bool
  | [], _ => true
  | _ :: _, [] => false
  | p :: ps, c :: cs => p == c && isStartOf ps cs

/-- Locate the first occurrence of `sep` in `s`; returns the text before the
occurrence and the text after it.  This is the primitive underlying Python's
`sep in s` and `s.split(sep)`. -/
def firstSplit (sep : Chars) : Chars → Option (Chars × Chars)
  | [] => if isStartOf sep [] then some ([], []) else none
  | c :: cs =>
    if isStartOf sep (c :: cs) then some ([], (c :: cs).drop sep.length)
    else (firstSplit sep cs).map fun pr => (c :: pr.1, pr.2)

/-- Python `sep in s`. -/
def containsTok (s sep : Chars) : Bool := (firstSplit sep s).isSome

/-- Python `s.split(sep)[0]`: the text before the first occurrence of `sep`,
or all of `s` when `sep` does not occur. -/
def beforeFirst (sep s : Chars) : Chars :=
  match firstSplit sep s with
  | some (b, _) => b
  | none => s

/-- The text after the first occurrence of `sep` (used only when an
occurrence exists, which every call site guards with `containsTok`). -/
def afterFirst (sep s : Chars) : Chars :=
  match firstSplit sep s with
  | some (_, a) => a
  | none => []

/-- Python `s.split(sep)[1]` when `sep` occurs in `s`: the text between the
first occurrence of `sep` and the next occurrence after it (to the end of the
string when there is no second occurrence). -/
def split1 (sep s : Chars) : Chars := beforeFirst sep (afterFirst sep s)

/-- Python `s.strip()`: drop whitespace from both ends. -/
def pyStrip (s : Chars) : Chars :=
  (((s.dropWhile Char.isWhitespace).reverse).dropWhile Char.isWhitespace).reverse

/-- The shape of a value returned by `json.loads` as the two scripts consume
it: either a JSON array whose entries are the chapter titles, or some
non-list JSON value (`isinstance(chapters, list)` is false). -/
inductive JsonV where
  | arr (titles : List Chars)
  | nonList
deriving DecidableEq

/-- `json_content` extraction of `book_gen_anth.py` lines 103–110: when the
response contains a fenced block the text between the fence markers is
stripped and interpreted; otherwise the raw response is interpreted. -/
def anthJsonContent (resp : Chars) : Chars :=
  if containsTok resp (pyStr "```json") then
    pyStrip (beforeFirst (pyStr "```") (split1 (pyStr "```json") resp))
  else if containsTok resp (pyStr "```") then
    pyStrip (beforeFirst (pyStr "```") (split1 (pyStr "```") resp))
  else resp

/-- Outline handling of `book_creation_og.py` lines 95–108: `json.loads` on
the raw response; a parse failure or a non-list value is logged and
re-raised, failing the request.  The abstract `loads` oracle stands for
`json.loads` (none models a raised `JSONDecodeError`). -/
def parseOutlineOg (loads : Chars → Option JsonV) (resp : Chars) (n : Nat) :
    Except Chars (List Chars) :=
  match loads resp with
  | some (JsonV.arr cs) => Except.ok (adjustChapters cs n)
  | some JsonV.nonList => Except.error (pyStr "The output is not a JSON array.")
  | none => Except.error (pyStr "Error parsing JSON outline")

/-- The fallback titles of `book_gen_anth.py` line 124:
`[f"Chapter (i+1): (topic) - Part (i+1)" for i in range(num_chapters)]`. -/
def fallbackTitles (topic : Chars) (n : Nat) : List Chars :=
  (List.range n).map fun i =>
    pyStr "Chapter " ++ natStr (i + 1) ++ pyStr ": " ++ topic ++
      pyStr " - Part " ++ natStr (i + 1)

/-- Outline handling of `book_gen_anth.py` lines 101–125: fence extraction,
`json.loads`, the list check and the length repair all inside one `try`; any
failure (parse error or non-list value) is absorbed by the fallback-title
branch, so this step always returns a list and never fails. -/
def parseOutlineAnth (loads : Chars → Option JsonV) (topic resp : Chars) (n : Nat) :
    List Chars :=
  match loads (anthJsonContent resp) with
  | some (JsonV.arr cs) => adjustChapters cs n
  | _ => fallbackTitles topic n

/-- A fenced-code-block wrapping of a response body, the vendor formatting
the anth script's extraction is designed to absorb. -/
def fenceWrap (s : Chars) : Chars := pyStr "```json\n" ++ s ++ pyStr "\n```"

/-- Scan the remainder of a JSON string literal up to its closing quote
(escape-free literals only; a backslash aborts). -/
def scanStringLit : Chars → Option (Chars × Chars)
  | [] => none
  | c :: cs =>
    if c = '"' then some ([], cs)
    else if c = '\\' then none
    else (scanStringLit cs).map fun p => (c :: p.1, p.2)

/-- Drop leading JSON whitespace. -/
def skipWs (s : Chars) : Chars := s.dropWhile Char.isWhitespace

/-- Parse the comma-separated string elements of a JSON array up to and
including the closing bracket; fuelled by the input length. -/
def parseElems : Nat → Chars → Option (List Chars × Chars)
  | 0, _ => none
  | fuel + 1, s =>
    match skipWs s with
    | '"' :: rest =>
      match scanStringLit rest with
      | none => none
      | some (lit, rest2) =>
        match skipWs rest2 with
        | ',' :: rest3 => (parseElems fuel rest3).map fun p => (lit :: p.1, p.2)
        | ']' :: rest3 => some ([lit], rest3)
        | _ => none
    | _ => none

/-- Executable model of the fragment of Python `json.loads` exercised by the
concrete inputs in this development: a JSON array of escape-free string
literals parses to `JsonV.arr`; every other input yields `none` (on each
concrete input used below, `json.loads` likewise raises). -/
def miniLoads (s : Chars) : Option JsonV :=
  match skipWs s with
  | '[' :: rest =>
    match skipWs rest with
    | ']' :: rest2 => if skipWs rest2 = [] then some (JsonV.arr []) else none
    | _ =>
      match parseElems (rest.length + 1) rest with
      | some (cs, rest2) => if skipWs rest2 = [] then some (JsonV.arr cs) else none
      | none => none
  | _ => none

/-- Python `text.replace(chr(10), rep)`: every occurrence of the newline
character is replaced by `rep` (single-character pattern, so a left-to-right
scan over the characters). -/
def pyReplaceNl (rep : Chars) : Chars → Chars
  | [] => []
  | c :: cs => (if c = '\n' then rep else [c]) ++ pyReplaceNl rep cs

/-- The segments of a text between newline characters (`n` newlines give
`n + 1` segments, possibly empty). -/
def splitNl : Chars → List Chars
  | [] => [[]]
  | c :: cs =>
    if c = '\n' then [] :: splitNl cs
    else
      match splitNl cs with
      | l :: ls => (c :: l) :: ls
      | [] => [[c]]

/-- Join a list of segments, placing `sep` between consecutive segments. -/
def joinWith (sep : Chars) : List Chars → Chars
  | [] => []
  | [x] => x
  | x :: y :: ys => x ++ sep ++ joinWith sep (y :: ys)

/-- The chapter fragment of `book_creation_og.py` line 121 /
`book_gen_anth.py` line 140:
heading from the 1-based index and title, then the model text with every
newline replaced by a paragraph break, wrapped in one outer paragraph. -/
def chapterHtml (idx : Nat) (title text : Chars) : Chars :=
  pyStr "<h2>Chapter " ++ natStr idx ++ pyStr ": " ++ title ++ pyStr "</h2>\n<p>" ++
    pyReplaceNl (pyStr "</p>\n<p>") text ++ pyStr "</p>"

/-- The chapter loop of `book_creation_og.py` lines 110–125 /
`book_gen_anth.py` lines 127–144: `full_content += chapter_html + "\n"` for
each title, with `idx` counting from the given start.  `texts idx title`
is the model's response to the `idx`-th chapter call. -/
def fullContentAux (texts : Nat → Chars → Chars) (idx : Nat) : List Chars → Chars
  | [] => []
  | t :: ts => chapterHtml idx t (texts idx t) ++ pyStr "\n" ++ fullContentAux texts (idx + 1) ts

/-- The successive `chapter_html + "\n"` fragments appended by the chapter
loop, listed in loop order. -/
def chapterFragments (texts : Nat → Chars → Chars) (idx : Nat) : List Chars → List Chars
  | [] => []
  | t :: ts => (chapterHtml idx t (texts idx t) ++ pyStr "\n") :: chapterFragments texts (idx + 1) ts

/-- `generate_book_content` of `book_creation_og.py` (lines 82–125): outline
parse (which may fail the request) followed by the chapter loop. -/
def generateBookContentOg (loads : Chars → Option JsonV) (texts : Nat → Chars → Chars)
    (resp : Chars) (n : Nat) : Except Chars Chars :=
  match parseOutlineOg loads resp n with
  | Except.error e => Except.error e
  | Except.ok chapters => Except.ok (fullContentAux texts 1 chapters)

/-- `generate_book_content` of `book_gen_anth.py` (lines 87–144): outline
parse with fallback (never fails) followed by the chapter loop. -/
def generateBookContentAnth (loads : Chars → Option JsonV) (texts : Nat → Chars → Chars)
    (topic resp : Chars) (n : Nat) : Chars :=
  fullContentAux texts 1 (parseOutlineAnth loads topic resp n)

/-- `topic.replace(" ", "+")` (line 134 / 153). -/
def urlText (topic : Chars) : Chars := topic.map fun c => if c = ' ' then '+' else c

/-- Primary cover URL (lines 133–135 / 152–154). -/
def primaryUrl (topic : Chars) : Chars :=
  pyStr "https://via.placeholder.com/600x800.png?text=" ++ urlText topic

/-- Fallback cover URL (lines 142–143 / 161–162). -/
def fallbackUrl (topic : Chars) : Chars :=
  pyStr "https://dummyimage.com/600x800/cccccc/000000&text=" ++ urlText topic

/-- Outcome of one `requests.get(url)` plus `raise_for_status()`: either the
response bytes of a success status, or a raised exception (transport error
or non-success status). -/
inductive FetchOutcome where
  | success (body : List Nat)
  | failure
deriving DecidableEq

/-- `generate_book_cover` (og lines 127–158 / anth 146–177): try the primary
URL; on any exception try the fallback URL once; on a second exception
re-raise.  On a success, write the bytes (the `writeOk` oracle models the
`open`/`write`; a write failure re-raises) and return the output filename.
Returns the list of URLs fetched, in order, with the final outcome. -/
def generateBookCover (fetch : Chars → FetchOutcome) (writeOk : Bool)
    (topic outputFilename : Chars) : List Chars × Except Chars Chars :=
  match fetch (primaryUrl topic) with
  | FetchOutcome.success _ =>
    ([primaryUrl topic],
      if writeOk then Except.ok outputFilename
      else Except.error (pyStr "Failed to save cover image"))
  | FetchOutcome.failure =>
    match fetch (fallbackUrl topic) with
    | FetchOutcome.success _ =>
      ([primaryUrl topic, fallbackUrl topic],
        if writeOk then Except.ok outputFilename
        else Except.error (pyStr "Failed to save cover image"))
    | FetchOutcome.failure =>
      ([primaryUrl topic, fallbackUrl topic],
        Except.error (pyStr "Failed to generate cover image with fallback service"))

/-- `os.path.basename`: the part after the last path separator. -/
def osBasename (p : Chars) : Chars := (p.reverse.takeWhile fun c => c ≠ '/').reverse

/-- The package assembled by `compile_book_to_epub` (og lines 160–190 /
anth 179–210): metadata, the single content document, the embedded cover
bytes, the one-entry table of contents, the spine and the destination. -/
structure EpubPackage where
  identifier : Chars
  title : Chars
  language : Chars
  author : Chars
  contentDoc : Chars
  coverName : Chars
  coverBytes : List Nat
  tocEntries : List Chars
  spine : List Chars
  outputPath : Chars
deriving DecidableEq

/-- `compile_book_to_epub`: reading the cover file (the `fs` oracle maps a
path to its bytes; `none` models an unreadable file, whose exception is
re-raised) and assembling the package written to `outputFile`. -/
def compileBookToEpub (fs : Chars → Option (List Nat))
    (title author content coverImagePath outputFile : Chars) : Except Chars EpubPackage :=
  match fs coverImagePath with
  | none => Except.error (pyStr "Failed to compile EPUB")
  | some bytes =>
    Except.ok
      { identifier := pyStr "id123456"
        title := title
        language := pyStr "en"
        author := author
        contentDoc := pyStr "<h1>" ++ title ++ pyStr "</h1>\n" ++ content
        coverName := osBasename coverImagePath
        coverBytes := bytes
        tocEntries := [pyStr "chap_01.xhtml"]
        spine := [pyStr "cover", pyStr "nav", pyStr "chap_01.xhtml"]
        outputPath := outputFile }

/-- The observable actions of `create_book_process`, in execution order.
`deleteFile` never occurs in the source; it is included so that the absence
of any rollback of written files is expressible. -/
inductive Step where
  | genContent
  | genCover
  | compileEpub
  | logSuccess
  | logFailure
  | deleteFile
deriving DecidableEq

/-- The outcomes of the three pipeline components for one request, as seen
by `create_book_process` (each `Except.error` models a raised exception). -/
structure StepOracles where
  contentRes : Except Chars Chars
  coverRes : Except Chars Chars
  compileRes : Except Chars Chars

/-- `create_book_process` (og lines 196–207 / anth 216–228): the three steps
run sequentially inside one `try`; the first exception jumps to the handler
which logs the failure; success is logged only after `compile_book_to_epub`
returns the path.  Returns the trace of actions and the reported success
path (`none` = failure logged). -/
def createBookProcess (o : StepOracles) : List Step × Option Chars :=
  match o.contentRes with
  | Except.error _ => ([Step.genContent, Step.logFailure], none)
  | Except.ok _ =>
    match o.coverRes with
    | Except.error _ => ([Step.genContent, Step.genCover, Step.logFailure], none)
    | Except.ok _ =>
      match o.compileRes with
      | Except.error _ =>
        ([Step.genContent, Step.genCover, Step.compileEpub, Step.logFailure], none)
      | Except.ok path =>
        ([Step.genContent, Step.genCover, Step.compileEpub, Step.logSuccess], some path)

/-- What the click handler decides: reject with a message box (no thread is
started, so no pipeline step and no external call happens), or start the
worker thread with the collected values. -/
inductive UIDecision where
  | rejected (msg : Chars)
  | started (topic title author output : Chars) (chapters : Int) (cover : Chars)
deriving DecidableEq

/-- Python `s.endswith(suf)`. -/
def endsWith (suf s : Chars) : Bool := isStartOf suf.reverse s.reverse

/-- `run_book_creation` of `book_creation_og.py` lines 275–294: the entries
are stripped and the only check is the `int()` conversion of the chapters
field (`chaptersParse = none` models its `ValueError`); the topic and the
sign of the count are not validated before the worker is started. -/
def runBookCreationOg (topicE titleE authorE outputE coverE : Chars)
    (chaptersParse : Option Int) : UIDecision :=
  match chaptersParse with
  | none => UIDecision.rejected (pyStr "Chapters must be an integer.")
  | some n =>
    UIDecision.started (pyStrip topicE) (pyStrip titleE) (pyStrip authorE)
      (pyStrip outputE) n (pyStrip coverE)

/-- `run_book_creation` of `book_gen_anth.py` lines 324–376: empty topic is
rejected; empty title/author get defaults; a non-integer or non-positive
chapters field is rejected; the output name is suffixed with `.epub` when
missing; an empty cover name defaults; only then is the worker started. -/
def runBookCreationAnth (topicE titleE authorE outputE coverE : Chars)
    (chaptersParse : Option Int) : UIDecision :=
  let topic := pyStrip topicE
  if topic = [] then UIDecision.rejected (pyStr "Topic cannot be empty.")
  else
    let title0 := pyStrip titleE
    let title := if title0 = [] then pyStr "Book about " ++ topic else title0
    let author0 := pyStrip authorE
    let author := if author0 = [] then pyStr "Claude AI" else author0
    match chaptersParse with
    | none => UIDecision.rejected (pyStr "Chapters must be a positive integer.")
    | some n =>
      if n ≤ 0 then UIDecision.rejected (pyStr "Chapters must be a positive integer.")
      else
        let output0 := pyStrip outputE
        let output := if endsWith (pyStr ".epub") output0 then output0
          else output0 ++ pyStr ".epub"
        let cover0 := pyStrip coverE
        let cover := if cover0 = [] then pyStr "cover.png" else cover0
        UIDecision.started topic title author output n cover

theorem padChapters_spec (k : Nat) : ∀ (cs : List Chars) (n : Nat), n - cs.length = k →
    padChapters cs n = cs ++ (List.range' (cs.length + 1) (n - cs.length)).map syntheticTitle := by
  induction k with
  | zero =>
    intro cs n h
    rw [padChapters]
    simp only [h, List.range'_zero, List.map_nil, List.append_nil]
    have : ¬ cs.length < n := by omega
    simp [this]
  | succ k ih =>
    intro cs n h
    have hlt : cs.length < n := by omega
    rw [padChapters]
    simp only [if_pos hlt]
    have h' : n - (cs ++ [syntheticTitle (cs.length + 1)]).length = k := by
      simp only [List.length_append, List.length_cons, List.length_nil]; omega
    rw [ih _ _ h']
    simp only [List.length_append, List.length_cons, List.length_nil, List.append_assoc]
    congr 1
    have hn : n - cs.length = (n - (cs.length + 1)) + 1 := by omega
    rw [hn, List.range'_succ]
    simp only [List.map_cons, List.singleton_append]

theorem padChapters_eq (cs : List Chars) (n : Nat) :
    padChapters cs n = cs ++ (List.range' (cs.length + 1) (n - cs.length)).map syntheticTitle :=
  padChapters_spec (n - cs.length) cs n rfl

/-- C1: for every requested chapter count `n ≥ 1` and every parsed outline
list `cs` of `M` titles, the repaired outline has exactly `n` titles; when
`M > n` it is the first `n` parsed titles in order, and when `M < n` it is the
parsed titles followed by the synthetic titles `"Chapter k"` for
`k = M+1 .. n`. -/
theorem outline_repair_exact_length (cs : List Chars) (n : Nat) (h : 1 ≤ n) :
    (adjustChapters cs n).length = n ∧
    (cs.length > n → adjustChapters cs n = cs.take n) ∧
    (cs.length < n → adjustChapters cs n =
      cs ++ (List.range' (cs.length + 1) (n - cs.length)).map syntheticTitle) := by
  refine ⟨?_, ?_, ?_⟩
  · unfold adjustChapters
    split_ifs with h1 h2
    · exact h1
    · simp only [List.length_take]; omega
    · rw [padChapters_eq]
      simp only [List.length_append, List.length_map, List.length_range']
      omega
  · intro hgt
    unfold adjustChapters
    split_ifs with h1
    · omega
    · rfl
  · intro hlt
    unfold adjustChapters
    split_ifs with h1 h2
    · omega
    · omega
    · exact padChapters_eq cs n

theorem outline_repair_exact_length_witness :
    (adjustChapters [pyStr "Alpha"] 3).length = 3 ∧
    adjustChapters [pyStr "Alpha"] 3 =
      [pyStr "Alpha"] ++ (List.range' 2 2).map syntheticTitle :=
  ⟨(outline_repair_exact_length [pyStr "Alpha"] 3 (by decide)).1,
   (outline_repair_exact_length [pyStr "Alpha"] 3 (by decide)).2.2 (by decide)⟩

/-- C2 (counterexample): on the malformed outline response `"no list here"`
with `N = 2`, the OpenAI script's outline step fails the request (the parse
error is re-raised), and the Anthropic script's substituted titles start with
`"Chapter 1: T - Part 1"`, not the claimed `"Chapter 1"`. -/
theorem outline_malformed_counterexample :
    parseOutlineOg miniLoads (pyStr "no list here") 2 =
      Except.error (pyStr "Error parsing JSON outline") ∧
    parseOutlineAnth miniLoads (pyStr "T") (pyStr "no list here") 2 ≠
      [pyStr "Chapter 1", pyStr "Chapter 2"] :=
  ⟨rfl, by decide⟩

/-- C2 (amended): when the outline response yields no JSON list, the OpenAI
script fails the request with an error, while the Anthropic script absorbs
the failure: it substitutes exactly `n` synthetic titles of the form
`"Chapter k: (topic) - Part k"` for `k = 1 .. n` and proceeds. -/
theorem outline_malformed_behavior (loads : Chars → Option JsonV)
    (topic resp : Chars) (n : Nat)
    (hog : ∀ cs, loads resp ≠ some (JsonV.arr cs))
    (hanth : ∀ cs, loads (anthJsonContent resp) ≠ some (JsonV.arr cs)) :
    (∃ e, parseOutlineOg loads resp n = Except.error e) ∧
    parseOutlineAnth loads topic resp n = fallbackTitles topic n ∧
    (parseOutlineAnth loads topic resp n).length = n ∧
    ∀ i, i < n → (parseOutlineAnth loads topic resp n)[i]? =
      some (pyStr "Chapter " ++ natStr (i + 1) ++ pyStr ": " ++ topic ++
        pyStr " - Part " ++ natStr (i + 1)) := by
  have hfb : parseOutlineAnth loads topic resp n = fallbackTitles topic n := by
    unfold parseOutlineAnth
    cases h : loads (anthJsonContent resp) with
    | none => rfl
    | some v =>
      cases v with
      | arr cs => exact absurd h (hanth cs)
      | nonList => rfl
  refine ⟨?_, hfb, ?_, ?_⟩
  · unfold parseOutlineOg
    cases h : loads resp with
    | none => exact ⟨_, rfl⟩
    | some v =>
      cases v with
      | arr cs => exact absurd h (hog cs)
      | nonList => exact ⟨_, rfl⟩
  · rw [hfb]; simp [fallbackTitles]
  · intro i hi
    rw [hfb]
    simp [fallbackTitles, List.getElem?_map, List.getElem?_range, hi]

theorem outline_malformed_behavior_witness :
    (parseOutlineAnth miniLoads (pyStr "T") (pyStr "no list here") 2).length = 2 :=
  (outline_malformed_behavior miniLoads (pyStr "T") (pyStr "no list here") 2
    (fun cs h => by
      have e : miniLoads (pyStr "no list here") = none := by decide
      rw [e] at h; exact Option.noConfusion h)
    (fun cs h => by
      have e : miniLoads (anthJsonContent (pyStr "no list here")) = none := by decide
      rw [e] at h; exact Option.noConfusion h)).2.2.1

theorem isStartOf_self_append (l r : Chars) : isStartOf l (l ++ r) = true := by
  induction l with
  | nil => rfl
  | cons c l ih => simp [isStartOf, ih]

theorem firstSplit_of_isStartOf (sep s : Chars) (h : isStartOf sep s = true) :
    firstSplit sep s = some ([], s.drop sep.length) := by
  cases s with
  | nil => unfold firstSplit; rw [h]; simp
  | cons c cs => unfold firstSplit; rw [h]; simp

theorem firstSplit_self_append (p : Char) (ps rest : Chars) :
    firstSplit (p :: ps) ((p :: ps) ++ rest) = some ([], rest) := by
  rw [firstSplit_of_isStartOf _ _ (isStartOf_self_append _ _)]
  simp

theorem firstSplit_cons_nomatch (p c : Char) (ps cs : Chars) (hne : c ≠ p) :
    firstSplit (p :: ps) (c :: cs) =
      (firstSplit (p :: ps) cs).map fun pr => (c :: pr.1, pr.2) := by
  have hst : isStartOf (p :: ps) (c :: cs) = false := by
    simp [isStartOf, Ne.symm hne]
  show (if isStartOf (p :: ps) (c :: cs) = true
      then some (([] : Chars), (c :: cs).drop (p :: ps).length)
      else (firstSplit (p :: ps) cs).map fun pr => (c :: pr.1, pr.2)) = _
  rw [hst]
  simp

theorem fs_append_none (ps tail : Chars) (h0 : firstSplit ('`' :: ps) tail = none)
    (t : Chars) (ht : '`' ∉ t) : firstSplit ('`' :: ps) (t ++ tail) = none := by
  induction t with
  | nil => simpa using h0
  | cons c t' ih =>
    have hc : c ≠ '`' := fun h => ht (h ▸ List.mem_cons_self c t')
    rw [List.cons_append, firstSplit_cons_nomatch _ _ _ _ hc,
      ih fun h => ht (List.mem_cons_of_mem c h)]
    rfl

theorem fs_append_hit (ps tail b a : Chars)
    (h0 : firstSplit ('`' :: ps) tail = some (b, a))
    (t : Chars) (ht : '`' ∉ t) :
    firstSplit ('`' :: ps) (t ++ tail) = some (t ++ b, a) := by
  induction t with
  | nil => simpa using h0
  | cons c t' ih =>
    have hc : c ≠ '`' := fun h => ht (h ▸ List.mem_cons_self c t')
    rw [List.cons_append, firstSplit_cons_nomatch _ _ _ _ hc,
      ih fun h => ht (List.mem_cons_of_mem c h)]
    rfl

theorem dropWhile_length_le (p : Char → Bool) (l : Chars) :
    (l.dropWhile p).length ≤ l.length := by
  induction l with
  | nil => simp
  | cons c l ih =>
    rw [List.dropWhile_cons]
    split
    · exact Nat.le_trans ih (Nat.le_succ _)
    · simp

theorem pyStrip_newline_wrap (s : Chars)
    (hL : s.dropWhile Char.isWhitespace = s)
    (hR : s.reverse.dropWhile Char.isWhitespace = s.reverse) :
    pyStrip ('\n' :: (s ++ ['\n'])) = s := by
  rcases eq_or_ne s [] with rfl | hne
  · decide
  · unfold pyStrip
    have h1 : List.dropWhile Char.isWhitespace ('\n' :: (s ++ ['\n']))
        = List.dropWhile Char.isWhitespace (s ++ ['\n']) := by
      rw [List.dropWhile_cons, if_pos (by decide)]
    obtain ⟨c, s', rfl⟩ := List.exists_cons_of_ne_nil hne
    have hc : Char.isWhitespace c = false := by
      cases hw : Char.isWhitespace c
      · rfl
      · exfalso
        rw [List.dropWhile_cons, if_pos hw] at hL
        have hle := dropWhile_length_le Char.isWhitespace s'
        rw [hL] at hle
        simp at hle
    have h2 : List.dropWhile Char.isWhitespace ((c :: s') ++ ['\n']) = (c :: s') ++ ['\n'] := by
      rw [List.cons_append, List.dropWhile_cons, hc]
      simp
    rw [h1, h2]
    have h3 : ((c :: s') ++ ['\n']).reverse = '\n' :: (c :: s').reverse := by
      simp
    rw [h3, List.dropWhile_cons, if_pos (by decide), hR]
    simp

theorem anthJsonContent_no_backtick (s : Chars) (hbt : '`' ∉ s) :
    anthJsonContent s = s := by
  have ej : pyStr "```json" = '`' :: pyStr "``json" := rfl
  have e3 : pyStr "```" = '`' :: pyStr "``" := rfl
  have h1 : firstSplit ('`' :: pyStr "``json") s = none := by
    have := fs_append_none (pyStr "``json") [] rfl s hbt
    simpa using this
  have h2 : firstSplit ('`' :: pyStr "``") s = none := by
    have := fs_append_none (pyStr "``") [] rfl s hbt
    simpa using this
  unfold anthJsonContent containsTok
  rw [ej, e3, h1, h2]
  simp

theorem anthJsonContent_fenced (s : Chars) (hbt : '`' ∉ s)
    (hL : s.dropWhile Char.isWhitespace = s)
    (hR : s.reverse.dropWhile Char.isWhitespace = s.reverse) :
    anthJsonContent (fenceWrap s) = s := by
  have ht : '`' ∉ '\n' :: (s ++ ['\n']) := by
    intro h
    rcases List.mem_cons.mp h with h | h
    · exact absurd h (by decide)
    · rcases List.mem_append.mp h with h | h
      · exact hbt h
      · simp at h
  have eW : fenceWrap s = (pyStr "```json") ++ (('\n' :: (s ++ ['\n'])) ++ pyStr "```") := by
    unfold fenceWrap
    have eA : pyStr "```json\n" = pyStr "```json" ++ ['\n'] := rfl
    have eB : pyStr "\n```" = ['\n'] ++ pyStr "```" := rfl
    rw [eA, eB]
    simp
  have hsplit : firstSplit (pyStr "```json") (fenceWrap s) =
      some ([], ('\n' :: (s ++ ['\n'])) ++ pyStr "```") := by
    rw [eW, show pyStr "```json" = '`' :: pyStr "``json" from rfl, firstSplit_self_append]
  have hguard : containsTok (fenceWrap s) (pyStr "```json") = true := by
    rw [containsTok, hsplit]; rfl
  have hafter : afterFirst (pyStr "```json") (fenceWrap s) =
      ('\n' :: (s ++ ['\n'])) ++ pyStr "```" := by
    rw [afterFirst, hsplit]
  have hbefore1 : beforeFirst (pyStr "```json") (('\n' :: (s ++ ['\n'])) ++ pyStr "```") =
      ('\n' :: (s ++ ['\n'])) ++ pyStr "```" := by
    have hnone : firstSplit ('`' :: pyStr "``json")
        (('\n' :: (s ++ ['\n'])) ++ pyStr "```") = none :=
      fs_append_none (pyStr "``json") (pyStr "```") rfl _ ht
    rw [beforeFirst, show pyStr "```json" = '`' :: pyStr "``json" from rfl, hnone]
  have hbefore2 : beforeFirst (pyStr "```") (('\n' :: (s ++ ['\n'])) ++ pyStr "```") =
      '\n' :: (s ++ ['\n']) := by
    have hhit : firstSplit ('`' :: pyStr "``")
        (('\n' :: (s ++ ['\n'])) ++ ('`' :: pyStr "``")) =
        some ('\n' :: (s ++ ['\n']) ++ [], []) :=
      fs_append_hit (pyStr "``") ('`' :: pyStr "``") [] [] rfl _ ht
    rw [beforeFirst, show pyStr "```" = '`' :: pyStr "``" from rfl, hhit]
    simp
  unfold anthJsonContent
  rw [if_pos hguard]
  unfold split1
  rw [hafter, hbefore1, hbefore2]
  exact pyStrip_newline_wrap s hL hR

/-- C6 (amended): in the Anthropic script, a fenced-code-block-wrapped
outline response and the bare response containing the same logical
backtick-free, whitespace-trimmed array body are interpreted identically:
the extraction recovers exactly the body before `json.loads`, so the parsed
title lists coincide for every `loads` behaviour.  (The OpenAI script has no
extraction step; see the counterexample.) -/
theorem fenced_and_bare_identical (loads : Chars → Option JsonV)
    (topic s : Chars) (n : Nat) (hbt : '`' ∉ s)
    (hL : s.dropWhile Char.isWhitespace = s)
    (hR : s.reverse.dropWhile Char.isWhitespace = s.reverse) :
    anthJsonContent (fenceWrap s) = s ∧ anthJsonContent s = s ∧
    parseOutlineAnth loads topic (fenceWrap s) n = parseOutlineAnth loads topic s n := by
  have h1 := anthJsonContent_fenced s hbt hL hR
  have h2 := anthJsonContent_no_backtick s hbt
  refine ⟨h1, h2, ?_⟩
  unfold parseOutlineAnth
  rw [h1, h2]

theorem fenced_and_bare_identical_witness :
    parseOutlineAnth miniLoads (pyStr "T") (fenceWrap (pyStr "[\"A\",\"B\"]")) 2 =
      parseOutlineAnth miniLoads (pyStr "T") (pyStr "[\"A\",\"B\"]") 2 :=
  (fenced_and_bare_identical miniLoads (pyStr "T") (pyStr "[\"A\",\"B\"]") 2
    (by decide) (by decide) (by decide)).2.2

/-- C6 (counterexample): the OpenAI script performs no fence extraction, so
the fenced wrapping of the array `["A"]` fails to parse and the outline step
errors, while the bare array parses to `["A"]` — the two responses do not
yield identical output there. -/
theorem fenced_bare_og_counterexample :
    parseOutlineOg miniLoads (fenceWrap (pyStr "[\"A\"]")) 1 =
      Except.error (pyStr "Error parsing JSON outline") ∧
    parseOutlineOg miniLoads (pyStr "[\"A\"]") 1 = Except.ok [pyStr "A"] :=
  ⟨rfl, rfl⟩

theorem splitNl_ne_nil (s : Chars) : splitNl s ≠ [] := by
  induction s with
  | nil => simp [splitNl]
  | cons c cs ih =>
    unfold splitNl
    split_ifs with hc
    · simp
    · cases h : splitNl cs with
      | nil => simp
      | cons l ls => simp

theorem splitNl_cons_exists (cs : Chars) : ∃ l ls, splitNl cs = l :: ls := by
  cases h : splitNl cs with
  | nil => exact absurd h (splitNl_ne_nil cs)
  | cons l ls => exact ⟨l, ls, rfl⟩

theorem pyReplaceNl_eq_joinWith (rep s : Chars) :
    pyReplaceNl rep s = joinWith rep (splitNl s) := by
  induction s with
  | nil => rfl
  | cons c cs ih =>
    obtain ⟨l, ls, h⟩ := splitNl_cons_exists cs
    unfold pyReplaceNl splitNl
    split_ifs with hc
    · rw [ih, h]
      show rep ++ joinWith rep (l :: ls) = joinWith rep ([] :: l :: ls)
      rw [show joinWith rep ([] :: l :: ls) = [] ++ rep ++ joinWith rep (l :: ls) from rfl]
      simp
    · rw [ih, h]
      show [c] ++ joinWith rep (l :: ls) = joinWith rep ((c :: l) :: ls)
      cases ls with
      | nil => rfl
      | cons l2 ls2 =>
        show [c] ++ (l ++ rep ++ joinWith rep (l2 :: ls2)) =
          (c :: l) ++ rep ++ joinWith rep (l2 :: ls2)
        simp

theorem pwrap_join (parts : List Chars) (hne : parts ≠ []) :
    pyStr "<p>" ++ joinWith (pyStr "</p>\n<p>") parts ++ pyStr "</p>" =
      joinWith (pyStr "\n") (parts.map fun l => pyStr "<p>" ++ l ++ pyStr "</p>") := by
  induction parts with
  | nil => cases hne rfl
  | cons x xs ih =>
    cases xs with
    | nil => rfl
    | cons y ys =>
      have ihh := ih (by simp)
      rw [show joinWith (pyStr "</p>\n<p>") (x :: y :: ys) =
        x ++ pyStr "</p>\n<p>" ++ joinWith (pyStr "</p>\n<p>") (y :: ys) from rfl]
      rw [List.map_cons]
      rw [show joinWith (pyStr "\n")
        ((pyStr "<p>" ++ x ++ pyStr "</p>") :: (y :: ys).map fun l => pyStr "<p>" ++ l ++ pyStr "</p>") =
        (pyStr "<p>" ++ x ++ pyStr "</p>") ++ pyStr "\n" ++
          joinWith (pyStr "\n") ((y :: ys).map fun l => pyStr "<p>" ++ l ++ pyStr "</p>") from ?_]
      · rw [← ihh]
        rw [show pyStr "</p>\n<p>" = pyStr "</p>" ++ (pyStr "\n" ++ pyStr "<p>") from rfl]
        simp [List.append_assoc]
      · obtain ⟨l, ls, h⟩ : ∃ l ls, (y :: ys).map (fun l => pyStr "<p>" ++ l ++ pyStr "</p>") = l :: ls :=
          ⟨_, _, List.map_cons _ y ys⟩
        rw [h]
        rfl

theorem chapterHtml_join (idx : Nat) (title text : Chars) :
    chapterHtml idx title text =
      pyStr "<h2>Chapter " ++ natStr idx ++ pyStr ": " ++ title ++ pyStr "</h2>\n" ++
        joinWith (pyStr "\n") ((splitNl text).map fun l => pyStr "<p>" ++ l ++ pyStr "</p>") := by
  unfold chapterHtml
  rw [pyReplaceNl_eq_joinWith, ← pwrap_join _ (splitNl_ne_nil text),
    show pyStr "</h2>\n<p>" = pyStr "</h2>\n" ++ pyStr "<p>" from rfl]
  simp [List.append_assoc]

theorem splitNl_length (s : Chars) : (splitNl s).length = s.count '\n' + 1 := by
  induction s with
  | nil => simp [splitNl]
  | cons c cs ih =>
    obtain ⟨l, ls, h⟩ := splitNl_cons_exists cs
    unfold splitNl
    split_ifs with hc
    · subst hc
      simp [List.count_cons, ih]
    · rw [h]
      show ((c :: l) :: ls).length = (c :: cs).count '\n' + 1
      rw [h] at ih
      simp only [List.length_cons] at ih ⊢
      rw [List.count_cons]
      simp only [ih]
      have hnc : ('\n' = c) = False := by
        simp [Ne.symm hc]
      simp [hnc]
      exact hc

theorem chapterHtml_empty (idx : Nat) (title : Chars) :
    chapterHtml idx title [] =
      pyStr "<h2>Chapter " ++ natStr idx ++ pyStr ": " ++ title ++ pyStr "</h2>\n<p></p>" := by
  unfold chapterHtml
  simp only [pyReplaceNl, List.append_nil, List.append_assoc]
  rw [show pyStr "</h2>\n<p>" ++ pyStr "</p>" = pyStr "</h2>\n<p></p>" from rfl]

/-- C10: the renderer never fails: every single newline in the returned text
starts a new paragraph element, so the fragment is the heading followed by
the newline-separated lines each wrapped as a paragraph, the number of
paragraph elements is the newline count plus one, and an empty model
response yields the heading followed by the single empty paragraph
element. -/
theorem chapter_render_per_newline (idx : Nat) (title text : Chars) :
    chapterHtml idx title text =
      pyStr "<h2>Chapter " ++ natStr idx ++ pyStr ": " ++ title ++ pyStr "</h2>\n" ++
        joinWith (pyStr "\n") ((splitNl text).map fun l => pyStr "<p>" ++ l ++ pyStr "</p>") ∧
    (splitNl text).length = text.count '\n' + 1 ∧
    chapterHtml idx title [] =
      pyStr "<h2>Chapter " ++ natStr idx ++ pyStr ": " ++ title ++ pyStr "</h2>\n<p></p>" :=
  ⟨chapterHtml_join idx title text, splitNl_length text, chapterHtml_empty idx title⟩

/-- C7 (amended): the rendered fragment is the chapter heading built from
the 1-based index and title, followed by one paragraph element per
newline-separated line of the returned text, in order — every single
newline starts a new paragraph element, not only blank-line separations. -/
theorem chapter_fragment_per_line (idx : Nat) (title text : Chars) :
    chapterHtml idx title text =
      pyStr "<h2>Chapter " ++ natStr idx ++ pyStr ": " ++ title ++ pyStr "</h2>\n" ++
        joinWith (pyStr "\n") ((splitNl text).map fun l => pyStr "<p>" ++ l ++ pyStr "</p>") :=
  chapterHtml_join idx title text

/-- C7 (counterexample): for the returned text `"a\n\nb"` the blank-line
separated segments are `a` and `b`, yet the rendered fragment holds three
paragraph elements (one empty), not the two the claim demands. -/
theorem blank_line_paragraph_counterexample :
    chapterHtml 1 (pyStr "T") (pyStr "a\n\nb") =
      pyStr "<h2>Chapter 1: T</h2>\n<p>a</p>\n<p></p>\n<p>b</p>" ∧
    chapterHtml 1 (pyStr "T") (pyStr "a\n\nb") ≠
      pyStr "<h2>Chapter 1: T</h2>\n<p>a</p>\n<p>b</p>" := by
  decide

theorem fullContentAux_join (texts : Nat → Chars → Chars) :
    ∀ (ts : List Chars) (idx : Nat),
      fullContentAux texts idx ts = (chapterFragments texts idx ts).flatten := by
  intro ts
  induction ts with
  | nil => intro idx; rfl
  | cons t ts ih =>
    intro idx
    show chapterHtml idx t (texts idx t) ++ pyStr "\n" ++ fullContentAux texts (idx + 1) ts =
      ((chapterHtml idx t (texts idx t) ++ pyStr "\n") :: chapterFragments texts (idx + 1) ts).flatten
    rw [List.flatten_cons, ih]

theorem chapterFragments_length (texts : Nat → Chars → Chars) :
    ∀ (ts : List Chars) (idx : Nat), (chapterFragments texts idx ts).length = ts.length := by
  intro ts
  induction ts with
  | nil => intro idx; rfl
  | cons t ts ih => intro idx; simp [chapterFragments, ih]

theorem chapterFragments_get (texts : Nat → Chars → Chars) :
    ∀ (ts : List Chars) (idx i : Nat), i < ts.length →
      (chapterFragments texts idx ts)[i]? =
        some (chapterHtml (idx + i) (ts[i]?.getD [])
          (texts (idx + i) (ts[i]?.getD [])) ++ pyStr "\n") := by
  intro ts
  induction ts with
  | nil => intro idx i h; simp at h
  | cons t ts ih =>
    intro idx i h
    cases i with
    | zero => simp [chapterFragments]
    | succ i =>
      have h' : i < ts.length := by simpa using h
      show ((chapterHtml idx t (texts idx t) ++ pyStr "\n") ::
        chapterFragments texts (idx + 1) ts)[i + 1]? = _
      rw [List.getElem?_cons_succ, ih (idx + 1) i h']
      have e1 : idx + 1 + i = idx + (i + 1) := by omega
      have e2 : (t :: ts)[i + 1]? = ts[i]? := List.getElem?_cons_succ ..
      rw [e1, e2]

/-- C3: the chapter loop emits exactly one fragment per outline title, in
outline order: for an outline of `n` titles the concatenated content is the
join of `n` fragments, and the `i`-th fragment (0-based `i`) is the rendered
chapter with 1-based index `i + 1` and the `i`-th outline title. -/
theorem content_fragments_in_order (texts : Nat → Chars → Chars)
    (titles : List Chars) (n : Nat) (hn : titles.length = n) :
    fullContentAux texts 1 titles = (chapterFragments texts 1 titles).flatten ∧
    (chapterFragments texts 1 titles).length = n ∧
    ∀ i, i < n →
      (chapterFragments texts 1 titles)[i]? =
        some (chapterHtml (i + 1) (titles[i]?.getD [])
          (texts (i + 1) (titles[i]?.getD [])) ++ pyStr "\n") := by
  refine ⟨fullContentAux_join texts titles 1, by rw [chapterFragments_length]; exact hn, ?_⟩
  intro i hi
  have hlt : i < titles.length := by omega
  have := chapterFragments_get texts titles 1 i hlt
  rwa [show 1 + i = i + 1 from Nat.add_comm 1 i] at this

theorem content_fragments_in_order_witness :
    (chapterFragments (fun _ _ => pyStr "body") 1 [pyStr "A", pyStr "B"]).length = 2 :=
  (content_fragments_in_order (fun _ _ => pyStr "body") [pyStr "A", pyStr "B"] 2 (by decide)).2.1

/-- C4: if the primary endpoint succeeds the secondary is never contacted;
if the primary fails the secondary is attempted exactly once with the same
encoded topic text; if both fail the error propagates with no further
fallback. -/
theorem cover_fallback_policy (fetch : Chars → FetchOutcome) (writeOk : Bool)
    (topic out : Chars) :
    ((∃ b, fetch (primaryUrl topic) = FetchOutcome.success b) →
      (generateBookCover fetch writeOk topic out).1 = [primaryUrl topic]) ∧
    (fetch (primaryUrl topic) = FetchOutcome.failure →
      (generateBookCover fetch writeOk topic out).1 = [primaryUrl topic, fallbackUrl topic]) ∧
    (fetch (primaryUrl topic) = FetchOutcome.failure →
      fetch (fallbackUrl topic) = FetchOutcome.failure →
      (generateBookCover fetch writeOk topic out).2 =
        Except.error (pyStr "Failed to generate cover image with fallback service")) := by
  refine ⟨?_, ?_, ?_⟩
  · rintro ⟨b, hb⟩
    simp [generateBookCover, hb]
  · intro hp
    unfold generateBookCover
    rw [hp]
    cases hf : fetch (fallbackUrl topic) <;> rfl
  · intro hp hf
    unfold generateBookCover
    rw [hp, hf]

theorem cover_fallback_policy_witness :
    (generateBookCover
        (fun u => if u = primaryUrl (pyStr "a b") then FetchOutcome.failure
          else FetchOutcome.success [7])
        true (pyStr "a b") (pyStr "cover.png")).1 =
      [primaryUrl (pyStr "a b"), fallbackUrl (pyStr "a b")] :=
  (cover_fallback_policy
      (fun u => if u = primaryUrl (pyStr "a b") then FetchOutcome.failure
        else FetchOutcome.success [7])
      true (pyStr "a b") (pyStr "cover.png")).2.1 (by decide)

/-- C9: compiling the same title, author, chapter markup and cover file into
two distinct output paths yields two packages with identical content
document text and identical embedded cover bytes — both depend only on the
inputs. -/
theorem compile_content_deterministic (fs : Chars → Option (List Nat))
    (title author content coverPath p1 p2 : Chars) (bytes : List Nat)
    (hfs : fs coverPath = some bytes) (hne : p1 ≠ p2) :
    ∃ pkg1 pkg2,
      compileBookToEpub fs title author content coverPath p1 = Except.ok pkg1 ∧
      compileBookToEpub fs title author content coverPath p2 = Except.ok pkg2 ∧
      pkg1.contentDoc = pkg2.contentDoc ∧
      pkg1.coverBytes = pkg2.coverBytes ∧
      pkg1.contentDoc = pyStr "<h1>" ++ title ++ pyStr "</h1>\n" ++ content ∧
      pkg1.coverBytes = bytes := by
  unfold compileBookToEpub
  rw [hfs]
  exact ⟨_, _, rfl, rfl, rfl, rfl, rfl, rfl⟩

theorem compile_content_deterministic_witness :
    ∃ pkg1 pkg2,
      compileBookToEpub (fun p => if p = pyStr "cover.png" then some [1, 2] else none)
        (pyStr "T") (pyStr "A") (pyStr "<p>x</p>") (pyStr "cover.png") (pyStr "a.epub") =
          Except.ok pkg1 ∧
      compileBookToEpub (fun p => if p = pyStr "cover.png" then some [1, 2] else none)
        (pyStr "T") (pyStr "A") (pyStr "<p>x</p>") (pyStr "cover.png") (pyStr "b.epub") =
          Except.ok pkg2 ∧
      pkg1.contentDoc = pkg2.contentDoc ∧
      pkg1.coverBytes = pkg2.coverBytes ∧
      pkg1.contentDoc = pyStr "<h1>" ++ pyStr "T" ++ pyStr "</h1>\n" ++ pyStr "<p>x</p>" ∧
      pkg1.coverBytes = [1, 2] :=
  compile_content_deterministic (fun p => if p = pyStr "cover.png" then some [1, 2] else none)
    (pyStr "T") (pyStr "A") (pyStr "<p>x</p>") (pyStr "cover.png")
    (pyStr "a.epub") (pyStr "b.epub") [1, 2] (by decide) (by decide)

/-- C8: the pipeline runs strictly as content, cover, compilation, logged
success — each step appears only after its predecessor returned
successfully; any failure appends the failure log and nothing later runs;
no file-delete action ever occurs; success is reported with a path only when
the compilation step returned that path. -/
theorem orchestration_order (o : StepOracles) :
    ((createBookProcess o).1 <+:
        [Step.genContent, Step.genCover, Step.compileEpub, Step.logSuccess] ∨
      ∃ pre, (createBookProcess o).1 = pre ++ [Step.logFailure] ∧
        pre <+: [Step.genContent, Step.genCover, Step.compileEpub]) ∧
    Step.deleteFile ∉ (createBookProcess o).1 ∧
    (Step.genCover ∈ (createBookProcess o).1 → ∃ c, o.contentRes = Except.ok c) ∧
    (Step.compileEpub ∈ (createBookProcess o).1 →
      (∃ c, o.contentRes = Except.ok c) ∧ ∃ v, o.coverRes = Except.ok v) ∧
    (∀ p, (createBookProcess o).2 = some p →
      o.compileRes = Except.ok p ∧ Step.logSuccess ∈ (createBookProcess o).1) ∧
    (Step.logSuccess ∈ (createBookProcess o).1 → ∃ p, o.compileRes = Except.ok p) := by
  obtain ⟨cr, vr, mr⟩ := o
  rcases cr with e | c
  · refine ⟨Or.inr ⟨[Step.genContent], rfl, [Step.genCover, Step.compileEpub], rfl⟩,
      ?_, ?_, ?_, ?_, ?_⟩ <;> simp [createBookProcess]
  · rcases vr with e | v
    · refine ⟨Or.inr ⟨[Step.genContent, Step.genCover], rfl, [Step.compileEpub], rfl⟩,
        ?_, ?_, ?_, ?_, ?_⟩ <;> simp [createBookProcess]
    · rcases mr with e | p
      · refine ⟨Or.inr ⟨[Step.genContent, Step.genCover, Step.compileEpub], rfl, [], by simp⟩,
          ?_, ?_, ?_, ?_, ?_⟩ <;> simp [createBookProcess]
      · refine ⟨Or.inl ⟨[], by simp [createBookProcess]⟩, ?_, ?_, ?_, ?_, ?_⟩ <;> simp [createBookProcess]

theorem orchestration_order_witness :
    ∃ c, (StepOracles.mk (Except.ok (pyStr "content")) (Except.error (pyStr "boom"))
      (Except.error (pyStr "x"))).contentRes = Except.ok c :=
  (orchestration_order (StepOracles.mk (Except.ok (pyStr "content"))
    (Except.error (pyStr "boom")) (Except.error (pyStr "x")))).2.2.1 (by decide)

/-- C5 (counterexample): the OpenAI script starts the worker (and hence the
pipeline with its outline API call) for an empty topic and a chapter count
of 0 — no validation rejects the request. -/
theorem validation_counterexample :
    runBookCreationOg (pyStr "") (pyStr "T") (pyStr "A") (pyStr "book.epub")
      (pyStr "cover.png") (some 0) =
      UIDecision.started (pyStr "") (pyStr "T") (pyStr "A") (pyStr "book.epub") 0
        (pyStr "cover.png") := by
  decide

/-- C5 (amended): only the Anthropic script rejects an empty topic or a
non-positive chapter count before starting the worker; the OpenAI script
performs no such validation and starts the worker for every request whose
chapters field parses as an integer. -/
theorem validation_behavior (topicE titleE authorE outputE coverE : Chars) (n : Int) :
    (pyStrip topicE = [] →
      runBookCreationAnth topicE titleE authorE outputE coverE (some n) =
        UIDecision.rejected (pyStr "Topic cannot be empty.")) ∧
    (pyStrip topicE ≠ [] → n ≤ 0 →
      runBookCreationAnth topicE titleE authorE outputE coverE (some n) =
        UIDecision.rejected (pyStr "Chapters must be a positive integer.")) ∧
    (∃ t ti au ou co, runBookCreationOg topicE titleE authorE outputE coverE (some n) =
      UIDecision.started t ti au ou n co) := by
  refine ⟨?_, ?_, ⟨_, _, _, _, _, rfl⟩⟩
  · intro h
    simp [runBookCreationAnth, h]
  · intro h1 h2
    simp [runBookCreationAnth, h1, h2]

theorem validation_behavior_witness :
    runBookCreationAnth (pyStr " ") (pyStr "T") (pyStr "A") (pyStr "b.epub")
      (pyStr "c.png") (some 3) =
      UIDecision.rejected (pyStr "Topic cannot be empty.") :=
  (validation_behavior (pyStr " ") (pyStr "T") (pyStr "A") (pyStr "b.epub")
    (pyStr "c.png") 3).1 (by decide)

end BookCreator
